import Mathlib

/-!
Shallow embedding of the Inbox-Zero orchestrator program (src/app.py) and
proofs about it.  Pure Python functions become Lean functions; the Gmail
API backend (an external collaborator) is modelled as an explicit gateway
parameter; Python exceptions become `Except` values; CPython string
truthiness (`if not s`) becomes an emptiness test.  Python `str.strip` and
`str.startswith` are modelled by executable character-list functions so
that every definition evaluates on concrete inputs.
-/

/-! ## String helpers (models of Python str.strip / str.startswith) -/

/-- Model of the whitespace test used by Python `str.strip()`. -/
def isWs (c : Char) : Bool := c.isWhitespace

/-- Character-list core of `str.strip`: drop whitespace from both ends. -/
def stripChars (l : List Char) : List Char :=
  ((l.dropWhile isWs).reverse.dropWhile isWs).reverse

/-- Model of Python `s.strip()`. -/
def pyStrip (s : String) : String :=
  String.mk (stripChars s.data)

/-- Model of Python `s.startswith(pre)`. -/
def pyStartsWith (s pre : String) : Bool :=
  pre.data.isPrefixOf s.data

/-! ## Literal strings appearing in src/app.py -/

/-- Status value of a successful ToolResult. -/
def SUCCESS_S : String := "success"

/-- Status value of a failed ToolResult. -/
def ERROR_S : String := "error"

/-- Message returned by `archive_email_by_id` when `email_id` is empty. -/
def ARCHIVE_NOT_PROVIDED : String := "Email ID not provided for archiving."

/-- Message returned by `delete_email_by_id` when `email_id` is empty. -/
def DELETE_NOT_PROVIDED : String := "Email ID not provided for deleting."

/-- Leading text of the `draft_email` success message. -/
def DRAFT_OK_MSG : String := "✅ Real draft created! ID: "

/-- Leading text of the `archive_email_by_id` success message. -/
def ARCHIVE_OK_HEAD : String := "📦 Email "

/-- Trailing text of the `archive_email_by_id` success message. -/
def ARCHIVE_OK_TAIL : String := " has been really archived."

/-- Leading text of the `delete_email_by_id` success message. -/
def DELETE_OK_HEAD : String := "🗑️ Email "

/-- Trailing text of the `delete_email_by_id` success message. -/
def DELETE_OK_TAIL : String := " moved to trash."

/-- Leading text of the `create_reminder` message. -/
def REMINDER_HEAD : String := "⏰ Reminder set: "

/-- Middle text of the `create_reminder` message. -/
def REMINDER_MID : String := " on "

/-- Gmail label removed by archiving. -/
def INBOX_LABEL : String := "INBOX"

/-- Gmail label added by deleting (move to trash). -/
def TRASH_LABEL : String := "TRASH"

/-- Text rendered by Python for the `KeyError` raised when a payload or part
has no base64 `data` entry (`str(KeyError('data'))`). -/
def KEY_ERROR_DATA : String := "\x27data\x27"

/-- Leading text of the placeholder produced when reading a body fails. -/
def ERR_BODY_MSG : String := "Error reading email body: "

/-- Placeholder returned when no readable content is found. -/
def NO_CONTENT_MSG : String := "(No readable content found)"

/-- MIME type preferred by `get_email_body`. -/
def MIME_PLAIN : String := "text/plain"

/-- MIME type used by `get_email_body` as a fallback. -/
def MIME_HTML : String := "text/html"

/-- Marker of an echoed tool invocation (`msg.startswith("tool_code:")`). -/
def TOOL_CODE_MARK : String := "tool_code:"

/-- Second marker of an echoed tool invocation (`msg.startswith("print(")`). -/
def PRINT_MARK : String := "print("

/-- Fallback message displayed when no agent dialogue was extracted. -/
def LOOK_TERMINAL_MSG : String := "Look at the terminal for the output"

/-! ## Data model: ToolResult and the mailbox gateway -/

/-- Structured result dict returned by every tool in src/app.py:
`{"status": ..., "message": ...}`. -/
structure ToolResult where
  status : String
  message : String
  deriving DecidableEq, Repr

/-- Mutating Gmail API requests that the tools can issue.  `draftsCreate`
carries the recipient/subject/body from which the raw MIME message is
built; `messagesModify` carries `addLabelIds`/`removeLabelIds`;
`messagesDelete` is the permanent-erasure endpoint of the Gmail API, which
the program never calls (it exists in the vocabulary so that absence of
permanent erasure can be stated). -/
inductive GatewayCall where
  | draftsCreate (recipient subject body : String)
  | messagesModify (id : String) (addLabelIds removeLabelIds : List String)
  | messagesDelete (id : String)
  deriving DecidableEq, Repr

/-- One body part of a fetched Gmail message (`payload['parts'][i]`);
`bodyData` is `part['body']['data']` when that key is present. -/
structure MsgPart where
  mimeType : String
  bodyData : Option String
  deriving DecidableEq, Repr

/-- Payload of a fetched Gmail message (`msg['payload']`): an optional
parts list and the optional top-level `body.data`. -/
structure GmailPayload where
  parts : Option (List MsgPart)
  bodyData : Option String
  deriving DecidableEq, Repr

/-- Model of the Gmail service backend (external collaborator).  `run`
executes a mutating call, returning the created draft id on success or the
text of the raised exception on failure; `getFull` is
`messages().get(format=full)` used by `get_email_body`. -/
structure Gateway where
  run : GatewayCall → Except String String
  getFull : String → Except String GmailPayload

/-! ## The four ActionTools (src/app.py lines 117-157)

Each tool is embedded as a total function returning the ToolResult it
produces together with the list of mutating gateway calls it issued; the
Python `try/except` around the API call becomes a match on the gateway's
`Except` result, so an exception can never escape the tool. -/

/-- Embedding of `draft_email(recipient, subject, body)`. -/
def draft_email (g : Gateway) (recipient subject body : String) :
    ToolResult × List GatewayCall :=
  let call := GatewayCall.draftsCreate recipient subject body
  match g.run call with
  | Except.ok draftId =>
      (⟨SUCCESS_S, DRAFT_OK_MSG ++ draftId⟩, [call])
  | Except.error e => (⟨ERROR_S, e⟩, [call])

/-- Embedding of `archive_email_by_id(email_id)`. -/
def archive_email_by_id (g : Gateway) (email_id : String) :
    ToolResult × List GatewayCall :=
  if email_id = "" then (⟨ERROR_S, ARCHIVE_NOT_PROVIDED⟩, [])
  else
    let call := GatewayCall.messagesModify email_id [] [INBOX_LABEL]
    match g.run call with
    | Except.ok _ =>
        (⟨SUCCESS_S, ARCHIVE_OK_HEAD ++ email_id ++ ARCHIVE_OK_TAIL⟩, [call])
    | Except.error e => (⟨ERROR_S, e⟩, [call])

/-- Embedding of `delete_email_by_id(email_id)`. -/
def delete_email_by_id (g : Gateway) (email_id : String) :
    ToolResult × List GatewayCall :=
  if email_id = "" then (⟨ERROR_S, DELETE_NOT_PROVIDED⟩, [])
  else
    let call := GatewayCall.messagesModify email_id [TRASH_LABEL] []
    match g.run call with
    | Except.ok _ =>
        (⟨SUCCESS_S, DELETE_OK_HEAD ++ email_id ++ DELETE_OK_TAIL⟩, [call])
    | Except.error e => (⟨ERROR_S, e⟩, [call])

/-- Embedding of `create_reminder(task, date)`: mocked, no gateway call. -/
def create_reminder (task date : String) : ToolResult × List GatewayCall :=
  (⟨SUCCESS_S, REMINDER_HEAD ++ task ++ REMINDER_MID ++ date⟩, [])

/-- Module-level mutable state of src/app.py relevant to the tools: the
ambient selection variable `CURRENT_EMAIL_ID` (line 57). -/
structure ModuleState where
  CURRENT_EMAIL_ID : Option String
  deriving DecidableEq, Repr

/-- A tool invocation produced by the reasoning engine: one of the four
tools of `REAL_TOOLS` with its explicit arguments. -/
inductive ToolInvocation where
  | draft (recipient subject body : String)
  | archive (email_id : String)
  | delete (email_id : String)
  | reminder (task date : String)
  deriving DecidableEq, Repr

/-- Dispatch of a tool invocation to the corresponding Python function.
The module state is passed because the four functions live in the module
scope where `CURRENT_EMAIL_ID` resides; none of their bodies reference it
(src/app.py lines 117-157), which is what the dispatch reflects. -/
def runTool (_state : ModuleState) (g : Gateway) :
    ToolInvocation → ToolResult × List GatewayCall
  | ToolInvocation.draft r s b => draft_email g r s b
  | ToolInvocation.archive email_id => archive_email_by_id g email_id
  | ToolInvocation.delete email_id => delete_email_by_id g email_id
  | ToolInvocation.reminder task date => create_reminder task date

/-! ## get_email_body (src/app.py lines 78-107)

The base64 decode, UTF-8 decode and BeautifulSoup `get_text` pipeline is
external library code; it is modelled by the `decodeBody` parameter, whose
`Except.error` case stands for any exception that pipeline raises.  The
final Python `.strip()` applied to the extracted text is repo code and is
modelled by `pyStrip`. -/

/-- Test used by the part-selection loops: `part['mimeType'] == 'text/plain'`. -/
def isPlainPart (p : MsgPart) : Bool := p.mimeType == MIME_PLAIN

/-- Test used by the fallback loop: `part['mimeType'] == 'text/html'`. -/
def isHtmlPart (p : MsgPart) : Bool := p.mimeType == MIME_HTML

/-- Embedding of `part['body']['data']`: a missing `data` key raises
`KeyError('data')`, which the surrounding `except` turns into text. -/
def partDataOrKeyError (p : MsgPart) : Except String String :=
  match p.bodyData with
  | some d => Except.ok d
  | none => Except.error KEY_ERROR_DATA

/-- Embedding of the parts-less fallback `payload['body']['data']`. -/
def topLevelData (payload : GmailPayload) : Except String (Option String) :=
  match payload.bodyData with
  | some d => Except.ok (some d)
  | none => Except.error KEY_ERROR_DATA

/-- Embedding of the data-selection block of `get_email_body` (lines
82-98).  Python truthiness is explicit: `if parts:` is false for both a
missing and an empty parts list, and `if not data:` is true for both
`None` and the empty string, so the text/html loop also runs when the
first text/plain part carried empty data. -/
def extractData (payload : GmailPayload) : Except String (Option String) :=
  match payload.parts with
  | some parts =>
      if parts.isEmpty then topLevelData payload
      else
        match parts.find? isPlainPart with
        | some p =>
            match partDataOrKeyError p with
            | Except.error e => Except.error e
            | Except.ok d =>
                if d == "" then
                  match parts.find? isHtmlPart with
                  | some q => (partDataOrKeyError q).map some
                  | none => Except.ok (some d)
                else Except.ok (some d)
        | none =>
            match parts.find? isHtmlPart with
            | some q => (partDataOrKeyError q).map some
            | none => Except.ok none
  | none => topLevelData payload

/-- Embedding of `get_email_body(msg_id)`.  Every failure of the gateway
fetch, of the key lookups, or of the decode pipeline is caught by the
`except` clause and rendered as a placeholder string; when the selected
data is absent or empty the distinct no-content placeholder is returned. -/
def get_email_body (g : Gateway) (decodeBody : String → Except String String)
    (msg_id : String) : String :=
  match g.getFull msg_id with
  | Except.error e => ERR_BODY_MSG ++ e
  | Except.ok payload =>
      match extractData payload with
      | Except.error e => ERR_BODY_MSG ++ e
      | Except.ok none => NO_CONTENT_MSG
      | Except.ok (some d) =>
          if d == "" then NO_CONTENT_MSG
          else
            match decodeBody d with
            | Except.ok text => pyStrip text
            | Except.error e => ERR_BODY_MSG ++ e

/-! ## Event processing and report extraction (src/app.py lines 279-328) -/

/-- One tool call echoed by an event (`tool_call.name`, `tool_call.args`). -/
structure ToolCall where
  name : String
  args : List (String × String)
  deriving DecidableEq, Repr

/-- One event of the reasoning engine's response sequence: an optional
list of tool calls and an optional textual message (`event.message.text`).
An event whose `tool_calls` attribute is missing or empty is modelled by
an empty list; a missing or falsy `message`/`text` is modelled by `none`. -/
structure AgentEvent where
  tool_calls : List ToolCall
  message : Option String
  deriving DecidableEq, Repr

/-- Texts of the textual events, in production order. -/
def textual_events (events : List AgentEvent) : List String :=
  events.filterMap (fun e => e.message)

/-- Embedding of the collection loop (lines 285-299): every message text
whose strip is non-empty contributes its stripped form, in order. -/
def potential_agent_messages (events : List AgentEvent) : List String :=
  (textual_events events).filterMap
    (fun t => if pyStrip t = "" then none else some (pyStrip t))

/-- Embedding of the selection test of the second loop (line 307):
`not msg.startswith("tool_code:") and not msg.startswith("print(") and msg.strip()`. -/
def good_message (msg : String) : Bool :=
  !(pyStartsWith msg TOOL_CODE_MARK) && !(pyStartsWith msg PRINT_MARK)
    && !(pyStrip msg == "")

/-- Embedding of the selection loop (lines 303-309): the first collected
message passing `good_message`, or the initial empty string. -/
def first_agent_dialogue (events : List AgentEvent) : String :=
  match (potential_agent_messages events).find? good_message with
  | some m => m
  | none => ""

/-- Embedding of the `action_taken` flag (lines 279, 287-290): set iff
some event carries a non-empty tool-call list. -/
def action_taken (events : List AgentEvent) : Bool :=
  events.any (fun e => !e.tool_calls.isEmpty)

/-- Tool-call echoes written to the status box, in production order. -/
def tool_call_echoes (events : List AgentEvent) : List ToolCall :=
  events.flatMap (fun e => e.tool_calls)

/-- Terminal display of the processing cycle (lines 324-328): either the
extracted dialogue rendered with `st.success`, or the fallback rendered
with `st.info`. -/
inductive ReportDisplay where
  | success (report : String)
  | info (msg : String)
  deriving DecidableEq, Repr

/-- Embedding of the final display decision (lines 325-328). -/
def agent_final_report_display (events : List AgentEvent) : ReportDisplay :=
  if first_agent_dialogue events = "" then ReportDisplay.info LOOK_TERMINAL_MSG
  else ReportDisplay.success (first_agent_dialogue events)

/-- Echo heuristic of the code lifted to a raw (unstripped) text: the test
`good_message` applies to the stripped candidate. -/
def looks_like_tool_echo (t : String) : Bool :=
  pyStartsWith (pyStrip t) TOOL_CODE_MARK || pyStartsWith (pyStrip t) PRINT_MARK

/-- Event qualifies iff it carries a text whose strip is non-empty and is
not an echoed tool invocation; the selected report is the stripped text of
the first qualifying event. -/
def qualifying_event (e : AgentEvent) : Bool :=
  match e.message with
  | some t => !(pyStrip t == "") && !(looks_like_tool_echo t)
  | none => false

/-- Index of the first qualifying event, if any. -/
def selected_event_index (events : List AgentEvent) : Option Nat :=
  match events with
  | [] => none
  | e :: es =>
      if qualifying_event e then some 0
      else (selected_event_index es).map (fun i => i + 1)

/-! ## Mailbox-level semantics of gateway calls

Modelled from the spec: the MailboxGateway is an external collaborator;
`relabel(id, add, remove)` changes only the labels of one message, while
the permanent-erasure endpoint removes the message entirely.  This model
is used to state that archive/delete are reversible at the mailbox level. -/

/-- Mailbox state: each message id is either absent (permanently erased or
never existing) or present with a set of labels. -/
def Mailbox := String → Option (String → Bool)

/-- Effect of `addLabelIds`/`removeLabelIds` on one label set: added
labels become present, removed labels absent, others are unchanged. -/
def applyLabels (addL removeL : List String) (labels : String → Bool) :
    String → Bool :=
  fun lab => if lab ∈ addL then true else if lab ∈ removeL then false else labels lab

/-- Effect of one gateway call on the mailbox: `messagesModify` relabels
one message, `messagesDelete` permanently erases it, and creating a draft
does not alter existing messages. -/
def apply_gateway_call (c : GatewayCall) (m : Mailbox) : Mailbox :=
  match c with
  | GatewayCall.messagesModify id addL removeL =>
      fun i => if i = id then (m i).map (applyLabels addL removeL) else m i
  | GatewayCall.messagesDelete id => fun i => if i = id then none else m i
  | GatewayCall.draftsCreate _ _ _ => m

/-- A call is a permanent erasure iff it hits the `messages().delete`
endpoint. -/
def is_permanent_erasure : GatewayCall → Bool
  | GatewayCall.messagesDelete _ => true
  | _ => false

/-! ## Spec-side report-selection rule (refinement target for §4.3) -/

/-- Spec-side selection rule, written from the spec: scan the emitted
textual events in production order, discard any that are empty or
whitespace-only or that look like echoed tool-invocation syntax, and take
the first remaining one.  The echo test is a parameter because the spec
leaves the heuristic to the implementation. -/
def spec_select_report (isEcho : String → Bool) (texts : List String) :
    Option String :=
  (texts.filter (fun t => !(pyStrip t == "") && !(isEcho t))).head?

/-! ## Claim-level propositions (formalisations of spec sentences) -/

/-- Status of a ToolResult lies in the closed set {success, error}. -/
def valid_status (r : ToolResult) : Prop :=
  r.status = SUCCESS_S ∨ r.status = ERROR_S

/-- Formalisation of claim C2 as stated: the extracted final report is
non-empty, comes from the last event of the sequence, and sits after
every tool-call event. -/
def report_is_terminal (events : List AgentEvent) : Prop :=
  first_agent_dialogue events ≠ ""
  ∧ ∀ i, selected_event_index events = some i →
      (i + 1 = events.length
        ∧ ∀ j e, events[j]? = some e → e.tool_calls ≠ [] → j < i)

/-- The fallback text named by claim C3. -/
def NO_REPORT_TEXT : String := "no report available"

/-- Formalisation of claim C3 as stated: the code's selection equals the
spec's scan-discard-take-first rule, and when no candidate qualifies the
display falls back to an explicit no-report-available message. -/
def scan_discard_first_with_fallback : Prop :=
  ∀ events : List AgentEvent,
    (first_agent_dialogue events =
      (match spec_select_report looks_like_tool_echo (textual_events events) with
       | some t => pyStrip t
       | none => ""))
    ∧ (spec_select_report looks_like_tool_echo (textual_events events) = none →
        agent_final_report_display events = ReportDisplay.info NO_REPORT_TEXT)

/-- Formalisation of claim C6 as stated: with zero tool-call events and
exactly one textual event, the extracted report equals that text verbatim
after stripping, and no action is recorded. -/
def verbatim_single_text_report : Prop :=
  ∀ (events : List AgentEvent) (t : String),
    (∀ e, e ∈ events → e.tool_calls = []) →
    textual_events events = [t] →
    first_agent_dialogue events = pyStrip t ∧ action_taken events = false

/-- Formalisation of claim C10 as stated: the data of a text/html part is
selected only when no text/plain part exists among the parts. -/
def html_only_without_plain : Prop :=
  ∀ (payload : GmailPayload) (parts : List MsgPart) (q : MsgPart),
    payload.parts = some parts →
    parts.find? isHtmlPart = some q →
    extractData payload = Except.map some (partDataOrKeyError q) →
    parts.find? isPlainPart = none

/-! ## Concrete inputs used by witnesses and counterexamples -/

/-- Exception text of the always-failing gateway below. -/
def BOOM : String := "boom"

/-- Gateway on which every request raises. -/
def gwFail : Gateway :=
  ⟨fun _ => Except.error BOOM, fun _ => Except.error BOOM⟩

/-- Gateway on which every mutating request succeeds. -/
def gwOk : Gateway :=
  ⟨fun _ => Except.ok (String.mk ['d', '1']), fun _ => Except.error BOOM⟩

/-- Sample message id. -/
def M1 : String := "m1"

/-- Sample draft recipient. -/
def RCPT : String := "a@x.com"

/-- Sample draft subject. -/
def SUBJ : String := "Re: hello"

/-- Sample draft body. -/
def BODY_S : String := "Thanks, will do."

/-- Sample reminder task. -/
def TASK_S : String := "pay invoice"

/-- Sample reminder date. -/
def DATE_S : String := "2026-10-20"

/-- Sample decode pipeline that fails on every input. -/
def decodeFail : String → Except String String := fun _ => Except.error BOOM

/-- Textual event used by the C2 counterexample. -/
def HELLO_S : String := "Hello"

/-- Tool-call echo used by the C2 counterexample. -/
def ARCHIVE_CALL_CEX : ToolCall := ⟨String.mk ['a', 'r', 'c', 'h', 'i', 'v', 'e'], [(String.mk ['i', 'd'], M1)]⟩

/-- Event sequence refuting claim C2: a textual event precedes a
tool-call event, so the selected report is not after all tool calls. -/
def C2_cex_events : List AgentEvent :=
  [⟨[], some HELLO_S⟩, ⟨[ARCHIVE_CALL_CEX], none⟩]

/-- Report text used by the C2 amended witness. -/
def REPORT_S : String := "All done."

/-- Event used by the C2 amended witness. -/
def C2_witness_events : List AgentEvent := [⟨[], some REPORT_S⟩]

/-- Report text used by the C3 amended witness. -/
def REPORT2_S : String := "Classified as FYI and archived."

/-- Event used by the C3 amended witness. -/
def C3_witness_events : List AgentEvent := [⟨[], some REPORT2_S⟩]

/-- Text that the code's echo heuristic discards, used against C6. -/
def PRINTY_S : String := "print(1)"

/-- Event sequence refuting claim C6 as stated: one textual event, no
tool calls, but the text trips the tool-echo filter. -/
def C6_cex_events : List AgentEvent := [⟨[], some PRINTY_S⟩]

/-- Report text used by the C6 amended witness. -/
def FINE_S : String := "Classified as JUNK and deleted."

/-- Event used by the C6 amended witness. -/
def C6_witness_events : List AgentEvent := [⟨[], some FINE_S⟩]

/-- Base64 data carried by the html part of the C10 counterexample. -/
def HTML_DATA : String := "aGVsbG8="

/-- Parts list refuting claim C10: a text/plain part with empty data
followed by a text/html part with data. -/
def partsCex : List MsgPart := [⟨MIME_PLAIN, some ""⟩, ⟨MIME_HTML, some HTML_DATA⟩]

/-- Html part of `partsCex`. -/
def qCex : MsgPart := ⟨MIME_HTML, some HTML_DATA⟩

/-- Payload refuting claim C10. -/
def payloadCex : GmailPayload := ⟨some partsCex, none⟩

/-- Data carried by the plain part of the C10 witness payload. -/
def PLAIN_DATA : String := "cGxhaW4="

/-- Payload used by the C10 amended witness: one text/plain part with
non-empty data. -/
def payloadW : GmailPayload := ⟨some [⟨MIME_PLAIN, some PLAIN_DATA⟩], none⟩

/-- Concrete mailbox used by the C5 witness: one message `m1` labelled
INBOX. -/
def mailboxW : Mailbox :=
  fun i => if i = M1 then some (fun lab => lab == INBOX_LABEL) else none

/-! ## Helper lemmas -/

theorem dropWhile_shape {α : Type} (p : α → Bool) (l : List α) :
    l.dropWhile p = [] ∨ ∃ a t, l.dropWhile p = a :: t ∧ p a = false := by
  induction l with
  | nil => exact Or.inl rfl
  | cons a l ih =>
    by_cases h : p a = true
    · simpa [List.dropWhile_cons, h] using ih
    · refine Or.inr ⟨a, l, ?_, ?_⟩
      · simp [List.dropWhile_cons, h]
      · simpa using h

theorem dropWhile_is_suffix {α : Type} (p : α → Bool) (l : List α) :
    ∃ s, l = s ++ l.dropWhile p := by
  induction l with
  | nil => exact ⟨[], rfl⟩
  | cons a l ih =>
    by_cases h : p a = true
    · obtain ⟨s, hs⟩ := ih
      refine ⟨a :: s, ?_⟩
      simpa [List.dropWhile_cons, h] using congrArg (List.cons a) hs
    · exact ⟨[], by simp [List.dropWhile_cons, h]⟩

theorem stripChars_idem (l : List Char) :
    stripChars (stripChars l) = stripChars l := by
  rcases dropWhile_shape isWs (l.dropWhile isWs).reverse with hd | ⟨b, u, hd, hb⟩
  · have h1 : stripChars l = [] := by simp [stripChars, hd]
    rw [h1]
    rfl
  · have h1 : stripChars l = u.reverse ++ [b] := by simp [stripChars, hd]
    obtain ⟨s, hs⟩ := dropWhile_is_suffix isWs (l.dropWhile isWs).reverse
    rw [hd] at hs
    cases hu : u.reverse with
    | nil =>
      have h1b : stripChars l = [b] := by rw [h1, hu]; rfl
      rw [h1b]
      simp [stripChars, List.dropWhile_cons, hb]
    | cons a v =>
      have h2 := congrArg List.reverse hs
      rw [List.reverse_reverse, List.reverse_append, List.reverse_cons, hu] at h2
      have ha : isWs a = false := by
        rcases dropWhile_shape isWs l with h3 | ⟨a0, t0, h3, ha0⟩
        · rw [h3] at h2
          exact absurd h2 (by simp)
        · rw [h3] at h2
          have hhead : a0 = a := by simpa using congrArg List.head? h2
          rw [← hhead]
          exact ha0
      have h1b : stripChars l = a :: (v ++ [b]) := by rw [h1, hu]; simp
      rw [h1b]
      simp [stripChars, List.dropWhile_cons, ha, hb, List.reverse_cons,
        List.reverse_append]

theorem pyStrip_idem (s : String) : pyStrip (pyStrip s) = pyStrip s :=
  congrArg String.mk (stripChars_idem s.data)

theorem str_append_data (s t : String) : (s ++ t).data = s.data ++ t.data := rfl

theorem err_body_ne_no_content (e : String) :
    ERR_BODY_MSG ++ e ≠ NO_CONTENT_MSG := by
  intro h
  have h2 : (ERR_BODY_MSG ++ e).data = NO_CONTENT_MSG.data := congrArg String.data h
  rw [str_append_data] at h2
  obtain ⟨tl, h3⟩ : ∃ tl, ERR_BODY_MSG.data = 'E' :: tl := ⟨_, rfl⟩
  obtain ⟨tl2, h4⟩ : ∃ tl2, NO_CONTENT_MSG.data = '(' :: tl2 := ⟨_, rfl⟩
  rw [h3, h4] at h2
  simp at h2

theorem good_message_strip (t : String) :
    good_message (pyStrip t)
      = (!(pyStrip t == "") && !(looks_like_tool_echo t)) := by
  unfold good_message looks_like_tool_echo
  rw [pyStrip_idem]
  cases h1 : pyStartsWith (pyStrip t) TOOL_CODE_MARK <;>
    cases h2 : pyStartsWith (pyStrip t) PRINT_MARK <;>
    cases h3 : pyStrip t == "" <;> simp [h1, h2, h3]

theorem qualifying_event_iff (e : AgentEvent) :
    qualifying_event e = true
      ↔ ∃ t, e.message = some t ∧ pyStrip t ≠ "" ∧ looks_like_tool_echo t = false := by
  cases hm : e.message with
  | none => simp [qualifying_event, hm]
  | some t => simp [qualifying_event, hm]

theorem fad_spec (events : List AgentEvent) :
    first_agent_dialogue events =
      (match spec_select_report looks_like_tool_echo (textual_events events) with
       | some t => pyStrip t
       | none => "") := by
  unfold first_agent_dialogue spec_select_report potential_agent_messages
  generalize textual_events events = texts
  induction texts with
  | nil => rfl
  | cons t ts ih =>
    by_cases h0 : pyStrip t = ""
    · simpa [List.filterMap_cons, List.filter_cons, h0] using ih
    · by_cases h1 : looks_like_tool_echo t = true
      · simpa [List.filterMap_cons, List.filter_cons, h0, good_message_strip, h1]
          using ih
      · have h1b : looks_like_tool_echo t = false := by simpa using h1
        simp [List.filterMap_cons, List.filter_cons, h0, good_message_strip, h1b]

theorem fad_find (events : List AgentEvent) :
    first_agent_dialogue events =
      (match events.find? qualifying_event with
       | some e =>
           (match e.message with
            | some t => pyStrip t
            | none => "")
       | none => "") := by
  induction events with
  | nil => rfl
  | cons e es ih =>
    cases hm : e.message with
    | none =>
      have hq : qualifying_event e = false := by simp [qualifying_event, hm]
      simpa [first_agent_dialogue, potential_agent_messages, textual_events,
        List.filterMap_cons, hm, List.find?_cons, hq] using ih
    | some t =>
      by_cases h0 : pyStrip t = ""
      · have hq : qualifying_event e = false := by simp [qualifying_event, hm, h0]
        simpa [first_agent_dialogue, potential_agent_messages, textual_events,
          List.filterMap_cons, hm, h0, List.find?_cons, hq] using ih
      · by_cases h1 : looks_like_tool_echo t = true
        · have hq : qualifying_event e = false := by
            simp [qualifying_event, hm, h1]
          simpa [first_agent_dialogue, potential_agent_messages, textual_events,
            List.filterMap_cons, hm, h0, good_message_strip, h1,
            List.find?_cons, hq] using ih
        · have h1b : looks_like_tool_echo t = false := by simpa using h1
          have hq : qualifying_event e = true := by
            simp [qualifying_event, hm, h0, h1b]
          simp [first_agent_dialogue, potential_agent_messages, textual_events,
            List.filterMap_cons, hm, h0, good_message_strip, h1b,
            List.find?_cons, hq]

theorem selected_some (events : List AgentEvent) (i : Nat)
    (h : selected_event_index events = some i) :
    ∃ e, events[i]? = some e ∧ qualifying_event e = true
      ∧ events.find? qualifying_event = some e := by
  induction events generalizing i with
  | nil => simp [selected_event_index] at h
  | cons e es ih =>
    by_cases hq : qualifying_event e = true
    · have h0 : i = 0 := by
        have := h
        simp [selected_event_index, hq] at this
        omega
      subst h0
      exact ⟨e, by simp, hq, by simp [List.find?_cons, hq]⟩
    · have hq' : qualifying_event e = false := by simpa using hq
      simp only [selected_event_index, hq', if_neg, Bool.false_eq_true,
        if_false, Option.map_eq_some'] at h
      obtain ⟨j, hj, hji⟩ := h
      obtain ⟨e', h1, h2, h3⟩ := ih j hj
      refine ⟨e', ?_, h2, ?_⟩
      · rw [← hji]
        simpa using h1
      · simp [List.find?_cons, hq', h3]

theorem find_some_selected (events : List AgentEvent) (e : AgentEvent)
    (h : events.find? qualifying_event = some e) :
    ∃ i, selected_event_index events = some i ∧ events[i]? = some e := by
  induction events with
  | nil => simp at h
  | cons e0 es ih =>
    by_cases hq : qualifying_event e0 = true
    · have he : e = e0 := by
        rw [List.find?_cons] at h
        simp [hq] at h
        exact h.symm
      subst he
      exact ⟨0, by simp [selected_event_index, hq], by simp⟩
    · have hq' : qualifying_event e0 = false := by simpa using hq
      rw [List.find?_cons] at h
      simp [hq'] at h
      obtain ⟨i, h1, h2⟩ := ih h
      refine ⟨i + 1, ?_, by simpa using h2⟩
      simp [selected_event_index, hq', h1]

theorem modify_preserves_presence (id : String) (addL removeL : List String)
    (m : Mailbox) (i : String) :
    (apply_gateway_call (GatewayCall.messagesModify id addL removeL) m i).isSome
      = (m i).isSome := by
  by_cases h : i = id <;> simp [apply_gateway_call, h]

theorem remove_one_invertible (id lab : String) (m : Mailbox) :
    ∃ c2, apply_gateway_call c2
      (apply_gateway_call (GatewayCall.messagesModify id [] [lab]) m) = m := by
  cases hm : m id with
  | none =>
    refine ⟨GatewayCall.messagesModify id [] [], ?_⟩
    funext i
    by_cases h : i = id
    · subst h
      simp [apply_gateway_call, hm]
    · simp [apply_gateway_call, h]
  | some labels =>
    by_cases hl : labels lab = true
    · refine ⟨GatewayCall.messagesModify id [lab] [], ?_⟩
      funext i
      by_cases h : i = id
      · subst h
        simp only [apply_gateway_call, if_pos rfl, hm, Option.map_some']
        refine congrArg some (funext fun l => ?_)
        by_cases hll : l = lab
        · subst hll
          simp [applyLabels, hl]
        · simp [applyLabels, hll]
      · simp [apply_gateway_call, h]
    · have hl' : labels lab = false := by simpa using hl
      refine ⟨GatewayCall.messagesModify id [] [], ?_⟩
      funext i
      by_cases h : i = id
      · subst h
        simp only [apply_gateway_call, if_pos rfl, hm, Option.map_some']
        refine congrArg some (funext fun l => ?_)
        by_cases hll : l = lab
        · subst hll
          simp [applyLabels, hl']
        · simp [applyLabels, hll]
      · simp [apply_gateway_call, h]

theorem add_one_invertible (id lab : String) (m : Mailbox) :
    ∃ c2, apply_gateway_call c2
      (apply_gateway_call (GatewayCall.messagesModify id [lab] []) m) = m := by
  cases hm : m id with
  | none =>
    refine ⟨GatewayCall.messagesModify id [] [], ?_⟩
    funext i
    by_cases h : i = id
    · subst h
      simp [apply_gateway_call, hm]
    · simp [apply_gateway_call, h]
  | some labels =>
    by_cases hl : labels lab = true
    · refine ⟨GatewayCall.messagesModify id [] [], ?_⟩
      funext i
      by_cases h : i = id
      · subst h
        simp only [apply_gateway_call, if_pos rfl, hm, Option.map_some']
        refine congrArg some (funext fun l => ?_)
        by_cases hll : l = lab
        · subst hll
          simp [applyLabels, hl]
        · simp [applyLabels, hll]
      · simp [apply_gateway_call, h]
    · have hl' : labels lab = false := by simpa using hl
      refine ⟨GatewayCall.messagesModify id [] [lab], ?_⟩
      funext i
      by_cases h : i = id
      · subst h
        simp only [apply_gateway_call, if_pos rfl, hm, Option.map_some']
        refine congrArg some (funext fun l => ?_)
        by_cases hll : l = lab
        · subst hll
          simp [applyLabels, hl']
        · simp [applyLabels, hll]
      · simp [apply_gateway_call, h]

theorem head_filter_pred {α : Type} (p : α → Bool) (l : List α) (t : α)
    (h : (l.filter p).head? = some t) : p t = true := by
  cases hl : l.filter p with
  | nil => rw [hl] at h; simp at h
  | cons a l2 =>
    rw [hl] at h
    simp only [List.head?] at h
    have ha : a = t := by simpa using h
    subst ha
    have hmem : a ∈ l.filter p := by rw [hl]; exact List.mem_cons_self a l2
    exact (List.mem_filter.mp hmem).2

theorem flatMap_nil_of_all_nil {α β : Type} (f : α → List β) (l : List α)
    (h : ∀ x ∈ l, f x = []) : l.flatMap f = [] := by
  induction l with
  | nil => rfl
  | cons a l ih =>
    rw [List.flatMap_cons, h a (List.mem_cons_self a l), List.nil_append]
    exact ih (fun x hx => h x (List.mem_cons_of_mem a hx))

theorem archive_trace (g : Gateway) (email_id : String) :
    (archive_email_by_id g email_id).2
      = if email_id = "" then []
        else [GatewayCall.messagesModify email_id [] [INBOX_LABEL]] := by
  by_cases hid : email_id = ""
  · simp [archive_email_by_id, hid]
  · rcases h : g.run (GatewayCall.messagesModify email_id [] [INBOX_LABEL])
      with e | d <;> simp [archive_email_by_id, hid, h]

theorem delete_trace (g : Gateway) (email_id : String) :
    (delete_email_by_id g email_id).2
      = if email_id = "" then []
        else [GatewayCall.messagesModify email_id [TRASH_LABEL] []] := by
  by_cases hid : email_id = ""
  · simp [delete_email_by_id, hid]
  · rcases h : g.run (GatewayCall.messagesModify email_id [TRASH_LABEL] [])
      with e | d <;> simp [delete_email_by_id, hid, h]

/-! ## Claim theorems -/

/-- C1: every ActionTool (draft_email, archive_email_by_id,
delete_email_by_id, create_reminder), for every input and every gateway
behaviour, returns a ToolResult whose status lies in {success, error};
the tools are total (an exception can never pass the tool boundary), and
every underlying gateway failure is mapped into an error result whose
message is the failure's description. -/
theorem actionTools_status_and_failure_mapping (g : Gateway)
    (recipient subject body email_id email_id2 task date : String) :
    valid_status (draft_email g recipient subject body).1
    ∧ valid_status (archive_email_by_id g email_id).1
    ∧ valid_status (delete_email_by_id g email_id2).1
    ∧ valid_status (create_reminder task date).1
    ∧ (∀ e, g.run (GatewayCall.draftsCreate recipient subject body)
          = Except.error e →
        (draft_email g recipient subject body).1 = ⟨ERROR_S, e⟩)
    ∧ (∀ e, email_id ≠ "" →
        g.run (GatewayCall.messagesModify email_id [] [INBOX_LABEL])
          = Except.error e →
        (archive_email_by_id g email_id).1 = ⟨ERROR_S, e⟩)
    ∧ (∀ e, email_id2 ≠ "" →
        g.run (GatewayCall.messagesModify email_id2 [TRASH_LABEL] [])
          = Except.error e →
        (delete_email_by_id g email_id2).1 = ⟨ERROR_S, e⟩) := by
  refine ⟨?_, ?_, ?_, Or.inl rfl, ?_, ?_, ?_⟩
  · rcases h : g.run (GatewayCall.draftsCreate recipient subject body)
      with e | d <;> simp [valid_status, draft_email, h]
  · by_cases hid : email_id = ""
    · simp [valid_status, archive_email_by_id, hid]
    · rcases h : g.run (GatewayCall.messagesModify email_id [] [INBOX_LABEL])
        with e | d <;> simp [valid_status, archive_email_by_id, hid, h]
  · by_cases hid : email_id2 = ""
    · simp [valid_status, delete_email_by_id, hid]
    · rcases h : g.run (GatewayCall.messagesModify email_id2 [TRASH_LABEL] [])
        with e | d <;> simp [valid_status, delete_email_by_id, hid, h]
  · intro e h
    simp [draft_email, h]
  · intro e hne h
    simp [archive_email_by_id, hne, h]
  · intro e hne h
    simp [delete_email_by_id, hne, h]

/-- Witness for C1 at the always-failing gateway and concrete arguments:
each failing call is mapped into an error ToolResult carrying the
exception text. -/
theorem actionTools_status_witness :
    (draft_email gwFail RCPT SUBJ BODY_S).1 = ⟨ERROR_S, BOOM⟩
    ∧ (archive_email_by_id gwFail M1).1 = ⟨ERROR_S, BOOM⟩
    ∧ (delete_email_by_id gwFail M1).1 = ⟨ERROR_S, BOOM⟩ := by
  refine ⟨?_, ?_, ?_⟩
  · exact (actionTools_status_and_failure_mapping gwFail RCPT SUBJ BODY_S M1 M1
      TASK_S DATE_S).2.2.2.2.1 BOOM rfl
  · exact (actionTools_status_and_failure_mapping gwFail RCPT SUBJ BODY_S M1 M1
      TASK_S DATE_S).2.2.2.2.2.1 BOOM (by decide) rfl
  · exact (actionTools_status_and_failure_mapping gwFail RCPT SUBJ BODY_S M1 M1
      TASK_S DATE_S).2.2.2.2.2.2 BOOM (by decide) rfl

/-- C4: archive_email_by_id and delete_email_by_id called with an empty
(missing) email_id return status=error with the not-provided message,
issue no gateway call, and never raise; the status of the result lies in
the error case of the closed status set.  The other two tools take no
identifier argument, so the condition is vacuous for them. -/
theorem empty_email_id_yields_error (g : Gateway) :
    archive_email_by_id g "" = (⟨ERROR_S, ARCHIVE_NOT_PROVIDED⟩, [])
    ∧ delete_email_by_id g "" = (⟨ERROR_S, DELETE_NOT_PROVIDED⟩, [])
    ∧ (archive_email_by_id g "").1.status = ERROR_S
    ∧ (delete_email_by_id g "").1.status = ERROR_S := by
  refine ⟨rfl, rfl, rfl, rfl⟩

/-- C7: create_reminder returns status=success for every task and date,
with the message naming the task and the date; it issues no gateway call
(no external write) and has no failure path. -/
theorem create_reminder_always_succeeds (task date : String) :
    create_reminder task date
      = (⟨SUCCESS_S, REMINDER_HEAD ++ task ++ REMINDER_MID ++ date⟩, []) := rfl

/-- C9: no ActionTool reads the ambient selection state CURRENT_EMAIL_ID:
two runs of any tool invocation that agree on the explicit arguments and
the gateway but differ arbitrarily in the module state return identical
results. -/
theorem tools_ignore_ambient_selection (s1 s2 : ModuleState) (g : Gateway)
    (inv : ToolInvocation) : runTool s1 g inv = runTool s2 g inv := by
  cases inv <;> rfl

/-- C5: archive_email_by_id issues exactly one label change removing the
INBOX label (none when the id is empty), delete_email_by_id issues exactly
one label change adding the TRASH label, and every call either tool issues
is not a permanent erasure, preserves the presence of every message, and
is reversible by a further label change. -/
theorem archive_delete_label_change_only (g : Gateway) (email_id : String) :
    ((archive_email_by_id g email_id).2
        = if email_id = "" then []
          else [GatewayCall.messagesModify email_id [] [INBOX_LABEL]])
    ∧ ((delete_email_by_id g email_id).2
        = if email_id = "" then []
          else [GatewayCall.messagesModify email_id [TRASH_LABEL] []])
    ∧ (∀ c, c ∈ (archive_email_by_id g email_id).2
            ++ (delete_email_by_id g email_id).2 →
        is_permanent_erasure c = false
        ∧ (∀ (m : Mailbox) (i : String),
            (apply_gateway_call c m i).isSome = (m i).isSome)
        ∧ (∀ m : Mailbox, ∃ c2,
            apply_gateway_call c2 (apply_gateway_call c m) = m)) := by
  refine ⟨archive_trace g email_id, delete_trace g email_id, ?_⟩
  intro c hc
  rw [archive_trace, delete_trace] at hc
  by_cases hid : email_id = ""
  · rw [if_pos hid, if_pos hid] at hc
    simp at hc
  · rw [if_neg hid, if_neg hid] at hc
    simp only [List.mem_append, List.mem_singleton] at hc
    rcases hc with hc | hc
    · subst hc
      exact ⟨rfl, modify_preserves_presence email_id [] [INBOX_LABEL],
        fun m => remove_one_invertible email_id INBOX_LABEL m⟩
    · subst hc
      exact ⟨rfl, modify_preserves_presence email_id [TRASH_LABEL] [],
        fun m => add_one_invertible email_id TRASH_LABEL m⟩

/-- Witness for C5 at a concrete gateway, id and mailbox: the archive
call is in the issued trace, is no permanent erasure, and is undone by a
further label change on the concrete mailbox. -/
theorem archive_delete_label_witness :
    is_permanent_erasure (GatewayCall.messagesModify M1 [] [INBOX_LABEL]) = false
    ∧ ∃ c2, apply_gateway_call c2
        (apply_gateway_call (GatewayCall.messagesModify M1 [] [INBOX_LABEL])
          mailboxW) = mailboxW := by
  have h := (archive_delete_label_change_only gwOk M1).2.2
    (GatewayCall.messagesModify M1 [] [INBOX_LABEL]) (by decide)
  exact ⟨h.1, h.2.2 mailboxW⟩

/-- C8: get_email_body never raises: for every gateway behaviour, decode
pipeline and message id it returns either the stripped decoded text, or a
placeholder prefixed by the error description, or the distinct no-content
placeholder; a failing fetch maps to the error placeholder, and no error
placeholder coincides with the no-content placeholder. -/
theorem get_email_body_never_raises (g : Gateway)
    (decodeBody : String → Except String String) (msg_id : String) :
    ((∃ e, get_email_body g decodeBody msg_id = ERR_BODY_MSG ++ e)
      ∨ get_email_body g decodeBody msg_id = NO_CONTENT_MSG
      ∨ (∃ d t, decodeBody d = Except.ok t
          ∧ get_email_body g decodeBody msg_id = pyStrip t))
    ∧ (∀ e, g.getFull msg_id = Except.error e →
        get_email_body g decodeBody msg_id = ERR_BODY_MSG ++ e)
    ∧ (∀ e, ERR_BODY_MSG ++ e ≠ NO_CONTENT_MSG) := by
  refine ⟨?_, ?_, err_body_ne_no_content⟩
  · cases h1 : g.getFull msg_id with
    | error e => exact Or.inl ⟨e, by simp [get_email_body, h1]⟩
    | ok payload =>
      cases h2 : extractData payload with
      | error e => exact Or.inl ⟨e, by simp [get_email_body, h1, h2]⟩
      | ok dopt =>
        cases dopt with
        | none => exact Or.inr (Or.inl (by simp [get_email_body, h1, h2]))
        | some d =>
          by_cases hd : d = ""
          · exact Or.inr (Or.inl (by simp [get_email_body, h1, h2, hd]))
          · cases h3 : decodeBody d with
            | error e =>
                exact Or.inl ⟨e, by simp [get_email_body, h1, h2, hd, h3]⟩
            | ok text =>
                exact Or.inr (Or.inr
                  ⟨d, text, h3, by simp [get_email_body, h1, h2, hd, h3]⟩)
  · intro e he
    simp [get_email_body, he]

/-- Witness for C8: on the always-failing gateway the body reader returns
the error placeholder carrying the exception text. -/
theorem get_email_body_witness :
    get_email_body gwFail decodeFail M1 = ERR_BODY_MSG ++ BOOM :=
  (get_email_body_never_raises gwFail decodeFail M1).2.1 BOOM rfl

/-- C2 counterexample: on the event sequence whose textual event precedes
its tool-call event, the extracted report is selected from the first
event, so it is not positioned after all tool-call events and is not the
last item of the stream; the claim as stated is false at this input. -/
theorem report_terminal_counterexample : ¬ report_is_terminal C2_cex_events := by
  intro h
  have h0 : selected_event_index C2_cex_events = some 0 := by decide
  have h1 : C2_cex_events[1]? = some ⟨[ARCHIVE_CALL_CEX], none⟩ := by decide
  have h2 := (h.2 0 h0).2 1 ⟨[ARCHIVE_CALL_CEX], none⟩ h1 (by decide)
  omega

/-- C2 amended: each processing cycle produces exactly one report
display: either the fallback info message, or a unique non-empty success
report that equals the stripped text of the first qualifying textual
event; the code does not place the report after tool-call events. -/
theorem one_report_per_invocation (events : List AgentEvent) :
    (agent_final_report_display events = ReportDisplay.info LOOK_TERMINAL_MSG
      ∨ ∃ r, agent_final_report_display events = ReportDisplay.success r
          ∧ r ≠ "")
    ∧ (∀ r, agent_final_report_display events = ReportDisplay.success r →
        r = first_agent_dialogue events
        ∧ ∃ i e t, selected_event_index events = some i
            ∧ events[i]? = some e ∧ e.message = some t ∧ r = pyStrip t)
    ∧ (∀ r1 r2, agent_final_report_display events = ReportDisplay.success r1 →
        agent_final_report_display events = ReportDisplay.success r2 →
        r1 = r2) := by
  by_cases hf : first_agent_dialogue events = ""
  · refine ⟨Or.inl (by simp [agent_final_report_display, hf]), ?_, ?_⟩
    · intro r hr
      rw [agent_final_report_display, if_pos hf] at hr
      simp at hr
    · intro r1 r2 h1 h2
      rw [agent_final_report_display, if_pos hf] at h1
      simp at h1
  · refine ⟨Or.inr ⟨first_agent_dialogue events,
      by simp [agent_final_report_display, hf], hf⟩, ?_, ?_⟩
    · intro r hr
      rw [agent_final_report_display, if_neg hf] at hr
      have hrf : r = first_agent_dialogue events := by
        injection hr with h
        exact h.symm
      refine ⟨hrf, ?_⟩
      cases hfind : events.find? qualifying_event with
      | none =>
        rw [fad_find, hfind] at hf
        simp at hf
      | some e =>
        have hq : qualifying_event e = true := List.find?_some hfind
        obtain ⟨t, hmt, _, _⟩ := (qualifying_event_iff e).mp hq
        obtain ⟨i, hsel, hget⟩ := find_some_selected events e hfind
        have hfad : first_agent_dialogue events = pyStrip t := by
          rw [fad_find, hfind]
          simp [hmt]
        exact ⟨i, e, t, hsel, hget, hmt, by rw [hrf, hfad]⟩
    · intro r1 r2 h1 h2
      rw [agent_final_report_display, if_neg hf] at h1 h2
      injection h1.symm with e1
      injection h2.symm with e2
      rw [e1, e2]

/-- Witness for C2 amended at a concrete single-event run: the report is
the stripped text of the first (and only) qualifying event. -/
theorem one_report_witness :
    first_agent_dialogue C2_witness_events = pyStrip REPORT_S
    ∧ ∃ i e t, selected_event_index C2_witness_events = some i
        ∧ C2_witness_events[i]? = some e ∧ e.message = some t
        ∧ pyStrip REPORT_S = pyStrip t := by
  have h := (one_report_per_invocation C2_witness_events).2.1
    (pyStrip REPORT_S) (by decide)
  exact ⟨h.1.symm, h.2⟩

/-- C3 counterexample: when no candidate qualifies (empty event
sequence), the code does not fall back to a message reading "no report
available": it displays the look-at-the-terminal info message, so the
claim as stated is false at this input. -/
theorem scan_fallback_counterexample : ¬ scan_discard_first_with_fallback := by
  intro h
  have h2 := (h []).2 rfl
  exact absurd h2 (by decide)

/-- C3 amended: report extraction scans textual events in production
order, discards whitespace-only texts and texts that look like echoed
tool-invocation syntax, takes the first remaining one (stripped) as the
final report, and when no candidate qualifies falls back to the explicit
info message "Look at the terminal for the output". -/
theorem report_extraction_scan_first (events : List AgentEvent) :
    first_agent_dialogue events =
      (match spec_select_report looks_like_tool_echo (textual_events events) with
       | some t => pyStrip t
       | none => "")
    ∧ (spec_select_report looks_like_tool_echo (textual_events events) = none →
        agent_final_report_display events
          = ReportDisplay.info LOOK_TERMINAL_MSG)
    ∧ (∀ t, spec_select_report looks_like_tool_echo (textual_events events)
          = some t →
        agent_final_report_display events
          = ReportDisplay.success (pyStrip t)) := by
  refine ⟨fad_spec events, ?_, ?_⟩
  · intro hn
    have hfe : first_agent_dialogue events = "" := by
      rw [fad_spec events, hn]
    simp [agent_final_report_display, hfe]
  · intro t ht
    have hpred := head_filter_pred
      (fun u => !(pyStrip u == "") && !(looks_like_tool_echo u))
      (textual_events events) t ht
    have hne : pyStrip t ≠ "" := by
      intro hcontra
      simp [hcontra] at hpred
    have hfe : first_agent_dialogue events = pyStrip t := by
      rw [fad_spec events, ht]
    rw [agent_final_report_display, if_neg (by rw [hfe]; exact hne), hfe]

/-- Witness for C3 amended at a concrete single-event run: the selection
rule picks the event's text and the display shows it as the report. -/
theorem report_extraction_witness :
    agent_final_report_display C3_witness_events
      = ReportDisplay.success (pyStrip REPORT2_S) :=
  (report_extraction_scan_first C3_witness_events).2.2 REPORT2_S (by decide)

/-- C6 counterexample: a run with zero tool-call events and exactly one
textual event whose text trips the tool-echo filter yields an empty
extracted report instead of the text verbatim after stripping; the claim
as stated is false at this input. -/
theorem verbatim_counterexample : ¬ verbatim_single_text_report := by
  intro h
  have h2 := (h C6_cex_events PRINTY_S (by decide) rfl).1
  exact absurd h2 (by decide)

/-- C6 amended: for every run with zero tool-call events and exactly one
textual event whose stripped text is non-empty and does not look like an
echoed tool invocation, the extracted report equals that text verbatim
after stripping, no action is flagged, and no tool-call echo is
recorded. -/
theorem single_text_no_tools (events : List AgentEvent) (t : String)
    (hnc : ∀ e, e ∈ events → e.tool_calls = [])
    (htx : textual_events events = [t])
    (hne : pyStrip t ≠ "") (hecho : looks_like_tool_echo t = false) :
    first_agent_dialogue events = pyStrip t
    ∧ action_taken events = false
    ∧ tool_call_echoes events = [] := by
  refine ⟨?_, ?_, ?_⟩
  · have h := fad_spec events
    rw [htx] at h
    rw [h]
    simp [spec_select_report, List.filter_cons, hne, hecho]
  · rw [action_taken, List.any_eq_false]
    intro e he
    simp [hnc e he]
  · exact flatMap_nil_of_all_nil _ events hnc

/-- Witness for C6 amended at a concrete single-event run. -/
theorem single_text_witness :
    first_agent_dialogue C6_witness_events = pyStrip FINE_S
    ∧ action_taken C6_witness_events = false
    ∧ tool_call_echoes C6_witness_events = [] :=
  single_text_no_tools C6_witness_events FINE_S (by decide) rfl (by decide)
    (by decide)

/-- C10 counterexample: on a payload whose parts hold a text/plain part
with empty data followed by a text/html part with data, the html part's
data is selected although a text/plain part exists; the claim as stated
is false at this input. -/
theorem html_preference_counterexample : ¬ html_only_without_plain := by
  intro h
  have h2 := h payloadCex partsCex qCex rfl (by decide) rfl
  exact absurd h2 (by decide)

/-- C10 amended: with a non-empty parts list, get_email_body's selection
prefers the first text/plain part when it carries non-empty data; it
falls back to the first text/html part exactly when no text/plain part
exists or the selected plain data is the empty string; and a payload with
a missing or empty parts list falls back to the top-level body data. -/
theorem html_decoded_when_no_usable_plain (payload : GmailPayload) :
    (∀ parts p d, payload.parts = some parts →
        parts.find? isPlainPart = some p → p.bodyData = some d → d ≠ "" →
        extractData payload = Except.ok (some d))
    ∧ (∀ parts q, payload.parts = some parts → parts ≠ [] →
        parts.find? isPlainPart = none → parts.find? isHtmlPart = some q →
        extractData payload = Except.map some (partDataOrKeyError q))
    ∧ (∀ parts p q, payload.parts = some parts →
        parts.find? isPlainPart = some p → p.bodyData = some "" →
        parts.find? isHtmlPart = some q →
        extractData payload = Except.map some (partDataOrKeyError q))
    ∧ ((payload.parts = none ∨ payload.parts = some []) →
        extractData payload = topLevelData payload) := by
  refine ⟨?_, ?_, ?_, ?_⟩
  · intro parts p d hp hfind hdata hne
    cases parts with
    | nil => simp at hfind
    | cons a l =>
        simp [extractData, hp, hfind, partDataOrKeyError, hdata, hne]
  · intro parts q hp hne hplain hhtml
    cases parts with
    | nil => simp at hhtml
    | cons a l => simp [extractData, hp, hplain, hhtml]
  · intro parts p q hp hplain hdata hhtml
    cases parts with
    | nil => simp at hplain
    | cons a l =>
        simp [extractData, hp, hplain, partDataOrKeyError, hdata, hhtml]
  · intro hcase
    rcases hcase with hp | hp <;> simp [extractData, hp]

/-- Witness for C10 amended: a payload with one text/plain part carrying
non-empty data selects exactly that data. -/
theorem html_preference_witness :
    extractData payloadW = Except.ok (some PLAIN_DATA) :=
  (html_decoded_when_no_usable_plain payloadW).1
    [⟨MIME_PLAIN, some PLAIN_DATA⟩] ⟨MIME_PLAIN, some PLAIN_DATA⟩ PLAIN_DATA
    rfl (by decide) rfl (by decide)
